import Mathlib

/-!
# Verification of the subgraph sync checker (`src/main.go`)

Shallow embedding of the repository's single Go source file.

Modelling conventions:
* Go `int64` values (block heights, `time.Duration` nanosecond counts) are
  `Int`; overflow is out of scope for the block ranges involved.
* Go `float64` arithmetic (sync speed, ETA minutes, formatting thresholds)
  is modelled over `ℚ`.
* `time.Time` sample timestamps are modelled as rationals measured in
  minutes, so that Go's `t2.Sub(t1).Minutes()` becomes plain subtraction.
* Network calls are modelled by their outcome: the transport either fails
  or delivers a status code and a decoded (or undecodable) body.
-/

namespace SyncChecker

/-- `time.Minute` in nanoseconds (`time.Duration` is an `int64` count of
nanoseconds in Go). -/
def minuteNs : Int := 60000000000

/-- `time.Hour` in nanoseconds. -/
def hourNs : Int := 3600000000000

/-- Go's conversion `time.Duration(x)` of a `float64` to `int64` truncates
toward zero. -/
def truncQ (q : ℚ) : Int := if 0 ≤ q then ⌊q⌋ else ⌈q⌉

/-- `Duration.Minutes()` of a nanosecond count, as an exact rational. -/
def durationMinutes (d : Int) : ℚ := (d : ℚ) / (minuteNs : ℚ)

/-- `Duration.Hours()` of a nanosecond count, as an exact rational. -/
def durationHours (d : Int) : ℚ := (d : ℚ) / (hourNs : ℚ)

/-- `SubgraphInfo` (src/main.go lines 28–40).  `lastCheckedTimes` holds the
sample timestamps in minutes. -/
structure SubgraphInfo where
  chain : String
  name : String
  url : String
  currentBlock : Int
  lastBlock : Int
  blocksBehind : Int
  syncSpeed : ℚ
  estimatedTimeLeft : Int
  lastCheckedBlocks : List Int
  lastCheckedTimes : List ℚ
  maxHistoryEntries : Int
deriving Repr, DecidableEq

/-- `ChainInfo` (src/main.go lines 43–47). -/
structure ChainInfo where
  name : String
  rpcURL : String
  latestBlock : Int
deriving Repr, DecidableEq

/-- The error taxonomy of the spec: transport, decode and protocol errors.
The Go code returns plain wrapped `error` values; the constructor records
which call site produced the error. -/
inductive FetchError where
  | transport (msg : String)
  | decode (msg : String)
  | protocol (msg : String)
deriving Repr, DecidableEq

/-- The decoded body of a subgraph GraphQL response: either the JSON failed
to unmarshal into `GraphQLResponse`, or it yielded a block `number`
(`Data._meta.block.number`, zero when the field is absent, as Go zero-values
missing fields) and a list of `errors[].message` strings. -/
inductive GqlBody where
  | malformed (msg : String)
  | parsed (number : Int) (errors : List String)
deriving Repr, DecidableEq

/-- Outcome of the HTTP POST in `getCurrentBlock`: `client.Do` either fails
(connection refused, timeout, …) or yields a status code and a body. -/
inductive HttpOutcome where
  | connError (msg : String)
  | response (status : Int) (body : GqlBody)
deriving Repr, DecidableEq

/-- `getCurrentBlock` (src/main.go lines 204–270), given the outcome of its
HTTP exchange.  Note the Go code never inspects `resp.StatusCode`: a
response that decodes is processed whatever its status.  The only value
check is `response.Data.Meta.Block.Number == 0` (line 258), which rejects
exactly zero, not every non-positive number. -/
def getCurrentBlock : HttpOutcome → Except FetchError Int
  | .connError m => .error (.transport ("HTTP request failed: " ++ m))
  | .response _ body =>
    match body with
    | .malformed m => .error (.decode ("JSON decode error: " ++ m))
    | .parsed n errs =>
      match errs with
      | e :: _ => .error (.protocol ("GraphQL error: " ++ e))
      | [] =>
        if n = 0 then
          .error (.protocol "received zero block number, potential API structure mismatch")
        else
          .ok n

/-- The decoded body of a chain JSON-RPC response: either the JSON failed to
decode into `struct { Result string }`, or it yielded the `result` string
(the empty string when the field is absent — Go leaves the field at its zero
value, and a JSON-RPC error object decodes this way too, since the struct
has no `error` field). -/
inductive RpcBody where
  | malformed (msg : String)
  | parsed (result : String)
deriving Repr, DecidableEq

/-- Outcome of the HTTP POST in `getLatestBlockFromChain`. -/
inductive RpcOutcome where
  | connError (msg : String)
  | response (body : RpcBody)
deriving Repr, DecidableEq

def isHexDigit (c : Char) : Bool :=
  c.isDigit || (97 ≤ c.toNat && c.toNat ≤ 102) || (65 ≤ c.toNat && c.toNat ≤ 70)

def hexDigitVal (c : Char) : Nat :=
  if c.isDigit then c.toNat - 48
  else if 97 ≤ c.toNat then c.toNat - 87
  else c.toNat - 55

/-- `fmt.Sscanf(result.Result, "0x%x", &blockNumber)` with its error ignored
(src/main.go line 307): the literal `0x` must match, then the longest run of
hex digits is read; on any failure `blockNumber` keeps its zero value.
(The `%x` verb's leading-whitespace skip is elided; no claim involves a
result string with interior whitespace.) -/
def parseHex0x (s : String) : Int :=
  match s.data with
  | '0' :: 'x' :: rest =>
    let ds := rest.takeWhile isHexDigit
    if ds.isEmpty then 0
    else ((ds.foldl (fun a c => a * 16 + hexDigitVal c) 0 : Nat) : Int)
  | _ => 0

/-- `getLatestBlockFromChain` (src/main.go lines 273–309), given the outcome
of its HTTP exchange.  The request errors only when `client.Post` fails or
the body does not decode; the scan error of `fmt.Sscanf` is discarded, so an
absent or non-hex `result` yields block `0` with a `nil` error, and a
JSON-RPC `error` member is never inspected. -/
def getLatestBlockFromChain : RpcOutcome → Except FetchError Int
  | .connError m => .error (.transport m)
  | .response (.malformed m) => .error (.decode m)
  | .response (.parsed s) => .ok (parseHex0x s)

/-- The per-chain refresh step (src/main.go lines 88–96): on error the loop
logs and `continue`s, leaving `chainInfo.LatestBlock` untouched; on success
it overwrites it. -/
def updateChain (c : ChainInfo) (fetch : Except FetchError Int) : ChainInfo :=
  match fetch with
  | .error _ => c
  | .ok b => { c with latestBlock := b }

/-- Whether a chain's subgraphs are skipped this cycle (src/main.go
lines 112–116): exactly when the stored latest block is `0`. -/
def chainSkipped (c : ChainInfo) : Bool := c.latestBlock = 0

/-- The block-history part of the sample update (src/main.go lines 134–141):
append the new height, then drop the oldest entry when the length exceeds
`MaxHistoryEntries`. -/
def newBlocks (sg : SubgraphInfo) (currentBlock : Int) : List Int :=
  let blocks := sg.lastCheckedBlocks ++ [currentBlock]
  if (blocks.length : Int) > sg.maxHistoryEntries then blocks.drop 1 else blocks

/-- The timestamp-history part of the sample update (src/main.go
lines 135–141).  The Go code trims both slices under the one condition
`len(sg.LastCheckedBlocks) > sg.MaxHistoryEntries`, so the condition here
is on the block slice's length, not the time slice's. -/
def newTimes (sg : SubgraphInfo) (currentBlock : Int) (now : ℚ) : List ℚ :=
  let blocks := sg.lastCheckedBlocks ++ [currentBlock]
  let times := sg.lastCheckedTimes ++ [now]
  if (blocks.length : Int) > sg.maxHistoryEntries then times.drop 1 else times

/-- The successful-fetch body of the per-subgraph loop (src/main.go
lines 132–166): append the sample, trim the history to
`MaxHistoryEntries`, set the current/last/behind fields, and recompute
sync speed and ETA when the window has at least two samples and a
positive elapsed time. -/
def recordAndCompute (sg : SubgraphInfo) (currentBlock : Int) (now : ℚ)
    (latestBlock : Int) : SubgraphInfo :=
  let blocks2 := newBlocks sg currentBlock
  let times2 := newTimes sg currentBlock now
  let sg1 := { sg with
    lastCheckedBlocks := blocks2
    lastCheckedTimes := times2
    currentBlock := currentBlock
    lastBlock := latestBlock
    blocksBehind := latestBlock - currentBlock }
  if 2 ≤ blocks2.length then
    let blockDiff := blocks2.getD (blocks2.length - 1) 0 - blocks2.getD 0 0
    let timeDiff := times2.getD (times2.length - 1) 0 - times2.getD 0 0
    if 0 < timeDiff then
      let speed := (blockDiff : ℚ) / timeDiff
      if 0 < speed then
        { sg1 with
          syncSpeed := speed
          estimatedTimeLeft := truncQ ((sg1.blocksBehind : ℚ) / speed) * minuteNs }
      else
        { sg1 with syncSpeed := speed, estimatedTimeLeft := 0 }
    else sg1
  else sg1

/-- One pass of the per-subgraph loop body (src/main.go lines 124–199): a
failed fetch logs and `continue`s, mutating nothing; a successful fetch
records the sample and recomputes the metrics. -/
def cycleStep (sg : SubgraphInfo) (fetch : Except FetchError Int) (now : ℚ)
    (latestBlock : Int) : SubgraphInfo :=
  match fetch with
  | .error _ => sg
  | .ok b => recordAndCompute sg b now latestBlock

/-- A row is printed for a subgraph exactly when its fetch succeeded. -/
def rowPrinted (fetch : Except FetchError Int) : Bool :=
  match fetch with
  | .error _ => false
  | .ok _ => true

/-- Iterated cycles: each input is (fetch outcome, timestamp in minutes,
the chain's latest block this cycle). -/
def runCycles (sg : SubgraphInfo) (inputs : List (Except FetchError Int × ℚ × Int)) :
    SubgraphInfo :=
  inputs.foldl (fun s i => cycleStep s i.1 i.2.1 i.2.2) sg

/-- The successfully fetched block of one cycle input, if any. -/
def okBlock (i : Except FetchError Int × ℚ × Int) : Option Int := i.1.toOption

/-- Progress percentage as printed (src/main.go lines 168–174): the code
divides the current block by the chain's latest block — there is no start
block anywhere in the data model — and prints `100` whenever the subgraph
is not strictly behind. -/
def progressPct (currentBlock latestBlock blocksBehind : Int) : ℚ :=
  if 0 < blocksBehind ∧ 0 < latestBlock then
    (currentBlock : ℚ) / (latestBlock : ℚ) * 100
  else
    100

/-- The ETA cell of a printed row, keeping the branch taken and the numeric
value passed to `fmt.Sprintf`. -/
inductive EtaDisplay where
  | unknown
  | inSync
  | err
  | days (d : ℚ)
  | hours (h : ℚ)
  | minutes (m : ℚ)
deriving Repr, DecidableEq

/-- ETA formatting (src/main.go lines 176–189): default `"Unknown"`; a
positive ETA renders in days, hours or minutes by threshold; a non-positive
ETA with zero blocks behind renders `"In sync"`.  No branch produces an
`"Error"` marker — failed subgraphs never reach this code because the loop
`continue`s at line 129. -/
def etaDisplay (eta blocksBehind : Int) : EtaDisplay :=
  if 0 < eta then
    let days := durationHours eta / 24
    if 1 ≤ days then .days days
    else if 1 ≤ durationHours eta then .hours (durationHours eta)
    else .minutes (durationMinutes eta)
  else if blocksBehind = 0 then .inSync
  else .unknown

/-- The ETA cell of the row printed for a subgraph. -/
def rowEta (sg : SubgraphInfo) : EtaDisplay :=
  etaDisplay sg.estimatedTimeLeft sg.blocksBehind

/-! ## Helper lemmas: the fields of the updated subgraph record -/

theorem rc_lastCheckedBlocks (sg : SubgraphInfo) (b : Int) (t : ℚ) (L : Int) :
    (recordAndCompute sg b t L).lastCheckedBlocks = newBlocks sg b := by
  simp only [recordAndCompute]
  split_ifs <;> rfl

theorem rc_lastCheckedTimes (sg : SubgraphInfo) (b : Int) (t : ℚ) (L : Int) :
    (recordAndCompute sg b t L).lastCheckedTimes = newTimes sg b t := by
  simp only [recordAndCompute]
  split_ifs <;> rfl

theorem rc_currentBlock (sg : SubgraphInfo) (b : Int) (t : ℚ) (L : Int) :
    (recordAndCompute sg b t L).currentBlock = b := by
  simp only [recordAndCompute]
  split_ifs <;> rfl

theorem rc_lastBlock (sg : SubgraphInfo) (b : Int) (t : ℚ) (L : Int) :
    (recordAndCompute sg b t L).lastBlock = L := by
  simp only [recordAndCompute]
  split_ifs <;> rfl

theorem rc_blocksBehind (sg : SubgraphInfo) (b : Int) (t : ℚ) (L : Int) :
    (recordAndCompute sg b t L).blocksBehind = L - b := by
  simp only [recordAndCompute]
  split_ifs <;> rfl

theorem rc_maxHistoryEntries (sg : SubgraphInfo) (b : Int) (t : ℚ) (L : Int) :
    (recordAndCompute sg b t L).maxHistoryEntries = sg.maxHistoryEntries := by
  simp only [recordAndCompute]
  split_ifs <;> rfl

/-! ## Concrete states used by witnesses and counterexamples -/

/-- A subgraph record as configured at startup (src/main.go lines 66–71):
only the identification fields and the window size are set. -/
def sgInit : SubgraphInfo :=
  { chain := "pulsechain"
    name := "PulseX PulseChain V2"
    url := "https://graph.pulsechain.com/subgraphs/name/pulsechain/pulsex"
    currentBlock := 0
    lastBlock := 0
    blocksBehind := 0
    syncSpeed := 0
    estimatedTimeLeft := 0
    lastCheckedBlocks := []
    lastCheckedTimes := []
    maxHistoryEntries := 6 }

/-! ## C5 — behaviour on subgraph fetch failure -/

/-- A subgraph mid-sync, with a nonzero current block, speed and ETA. -/
def sgMidSync : SubgraphInfo :=
  { sgInit with
    currentBlock := 77
    lastBlock := 120
    blocksBehind := 43
    syncSpeed := 3
    estimatedTimeLeft := 120000000000
    lastCheckedBlocks := [70, 77]
    lastCheckedTimes := [0, 10] }

/-- C5 counterexample: a failed fetch leaves the whole record unchanged —
the current block stays `77`, not the sentinel `0`, and sync speed and ETA
are not reset to zero (the loop body is `log` + `continue`,
src/main.go lines 127–130). -/
theorem fetchFailure_no_sentinel_reset :
    cycleStep sgMidSync (.error (.transport "connection refused")) 20 500 = sgMidSync ∧
    (cycleStep sgMidSync (.error (.transport "connection refused")) 20 500).currentBlock = 77 ∧
    (cycleStep sgMidSync (.error (.transport "connection refused")) 20 500).syncSpeed = 3 ∧
    (cycleStep sgMidSync (.error (.transport "connection refused")) 20 500).estimatedTimeLeft
      = 120000000000 := by
  exact ⟨rfl, rfl, rfl, rfl⟩

/-- C5 (amended): a subgraph fetch failure never mutates the record at all —
the history is untouched, and the current block, blocks behind, sync speed
and ETA all keep their previous values; no field is reset to a sentinel. -/
theorem fetchFailure_frame :
    ∀ (sg : SubgraphInfo) (e : FetchError) (t : ℚ) (L : Int),
      cycleStep sg (.error e) t L = sg :=
  fun _ _ _ _ => rfl

/-! ## C9 — behaviour on chain fetch failure -/

/-- A chain whose latest block was fetched successfully in some earlier
cycle. -/
def chainStale : ChainInfo :=
  { name := "PulseChain", rpcURL := "https://rpc.pulsechain.com", latestBlock := 100 }

/-- C9 counterexample: when the latest-block fetch fails for a chain that
already holds a nonzero latest block, the stale value is retained but the
chain's subgraphs are NOT skipped — the skip test (src/main.go line 113)
only fires when the stored latest block is `0`. -/
theorem chainFailure_not_skipped :
    updateChain chainStale (.error (.transport "timeout")) = chainStale ∧
    chainSkipped (updateChain chainStale (.error (.transport "timeout"))) = false := by
  exact ⟨rfl, rfl⟩

/-- C9 (amended): on a chain fetch failure the previously stored
latest-block value is retained unmodified, and the chain's subgraphs are
skipped exactly when that retained value is `0` (i.e. the chain never
successfully reported a block); otherwise they are processed against the
stale value. -/
theorem chainFailure_retained_skip_iff_zero :
    ∀ (c : ChainInfo) (e : FetchError),
      updateChain c (.error e) = c ∧
      (chainSkipped (updateChain c (.error e)) = true ↔ c.latestBlock = 0) := by
  intro c e
  refine ⟨rfl, ?_⟩
  simp [updateChain, chainSkipped]

/-! ## C7 — the error cases of `getCurrentBlock` -/

/-- C7 counterexample: a response with HTTP status `500` and decoded block
number `-3` is returned as a success — the Go function never inspects the
status code, and its value check rejects only `number == 0`, not every
non-positive number.  The claim requires a `TransportError` (non-2xx) and
a `ProtocolError` (`number ≤ 0`) here. -/
theorem getCurrentBlock_accepts_negative_and_non2xx :
    getCurrentBlock (.response 500 (.parsed (-3) [])) = .ok (-3) ∧
    (-3 : Int) ≤ 0 ∧ ¬(200 ≤ (500 : Int) ∧ (500 : Int) < 300) := by
  refine ⟨rfl, by decide, by decide⟩

/-- C7 (amended): `getCurrentBlock` fails on connection failure (transport),
on a body that does not decode (decode), on a non-empty `errors` array
(protocol, carrying the first message); a decoded error-free body succeeds
with its block number if and only if that number is not exactly `0` — the
HTTP status code is never consulted, and negative numbers pass through. -/
theorem getCurrentBlock_cases :
    ∀ (s n : Int) (errs : List String) (m e : String),
      getCurrentBlock (.connError m)
          = .error (.transport ("HTTP request failed: " ++ m)) ∧
      getCurrentBlock (.response s (.malformed m))
          = .error (.decode ("JSON decode error: " ++ m)) ∧
      getCurrentBlock (.response s (.parsed n (e :: errs)))
          = .error (.protocol ("GraphQL error: " ++ e)) ∧
      (getCurrentBlock (.response s (.parsed n [])) = .ok n ↔ n ≠ 0) := by
  intro s n errs m e
  refine ⟨rfl, rfl, rfl, ?_⟩
  by_cases hn : n = 0 <;> simp [getCurrentBlock, hn]

/-! ## C8 — the error cases of `getLatestBlockFromChain` -/

/-- C8 counterexample: a decoded body whose `result` field is absent (the
Go struct then holds the empty string) is NOT a `DecodeError` — the
`fmt.Sscanf` error is discarded (src/main.go line 307) and the call
returns block `0` with a nil error; the same happens for a non-hex
`result`, and a JSON-RPC `error` member is never even decoded. -/
theorem getLatestBlock_absent_result_is_ok_zero :
    getLatestBlockFromChain (.response (.parsed "")) = .ok 0 ∧
    getLatestBlockFromChain (.response (.parsed "not-hex")) = .ok 0 := by
  refine ⟨rfl, rfl⟩

/-- C8 (amended): `getLatestBlockFromChain` fails only on connection
failure (transport) or an undecodable body (decode); every decoded body
succeeds, yielding the value of a `0x`-prefixed hex `result` and `0` for
an absent or invalid one — no JSON-RPC error message is inspected. -/
theorem getLatestBlock_cases :
    ∀ (m s : String),
      getLatestBlockFromChain (.connError m) = .error (.transport m) ∧
      getLatestBlockFromChain (.response (.malformed m)) = .error (.decode m) ∧
      getLatestBlockFromChain (.response (.parsed s)) = .ok (parseHex0x s) ∧
      parseHex0x "0x1a2b" = 6699 := by
  intro m s
  refine ⟨rfl, rfl, rfl, by decide⟩

/-! ## C1 — progress percentage -/

/-- C1 counterexample: the printed progress is `current/latest*100`, not
the claimed `(current-start)/(latest-start)*100` — there is no start-block
field anywhere in `SubgraphInfo`, so every subgraph has its start block
"unset", and the claim would force progress `0` for every row; the code
prints `50` here. -/
theorem progress_nonzero_with_unset_startBlock :
    progressPct 50 100 50 = 50 ∧ (50 : ℚ) ≠ 0 := by
  constructor
  · norm_num [progressPct]
  · norm_num

/-- C1 (amended): after a successful cycle the printed progress is
`current_block / latest_chain_block * 100` whenever the subgraph is
strictly behind a positive latest block, and exactly `100` otherwise
(including when the subgraph is level with or ahead of the chain); no
start block enters the computation. -/
theorem progress_amended :
    ∀ (sg : SubgraphInfo) (b : Int) (t : ℚ) (L : Int),
      progressPct (recordAndCompute sg b t L).currentBlock
          (recordAndCompute sg b t L).lastBlock
          (recordAndCompute sg b t L).blocksBehind =
        if b < L ∧ 0 < L then (b : ℚ) / (L : ℚ) * 100 else 100 := by
  intro sg b t L
  rw [rc_currentBlock, rc_lastBlock, rc_blocksBehind]
  simp only [progressPct, Int.sub_pos]

/-! ## C6 — the ETA column of a printed row -/

/-- A row state a failed fetch would have left behind: sentinel current
block, stale zero ETA, positive blocks behind. -/
def sgSentinel : SubgraphInfo :=
  { sgInit with currentBlock := 0, blocksBehind := 5, estimatedTimeLeft := 0 }

/-- C6 counterexample: the rendering code has no `"Error"` branch — a row
whose current block is the sentinel `0` renders `"Unknown"` (non-positive
ETA, nonzero blocks behind), not `"Error"`; failed fetches print no row at
all (`continue`, src/main.go line 129). -/
theorem sentinel_row_renders_unknown_not_error :
    sgSentinel.currentBlock = 0 ∧
    rowEta sgSentinel = .unknown ∧
    EtaDisplay.unknown ≠ EtaDisplay.err := by
  refine ⟨rfl, rfl, by decide⟩

/-- The ETA column policy the code actually implements, phrased by
thresholds on the ETA duration: non-positive ETA renders `"In sync"` when
the row is exactly level and `"Unknown"` otherwise; a positive ETA renders
in days when it is at least 24 hours, in hours when it is at least one
hour, and in minutes below that. -/
def etaPolicy (eta blocksBehind : Int) : EtaDisplay :=
  if eta ≤ 0 then
    if blocksBehind = 0 then .inSync else .unknown
  else if 24 ≤ durationHours eta then .days (durationHours eta / 24)
  else if 1 ≤ durationHours eta then .hours (durationHours eta)
  else .minutes (durationMinutes eta)

/-- C6 (amended): every printed row's ETA cell follows `etaPolicy` — the
day/hour/minute thresholds and the `"In sync"`/`"Unknown"` cases are as
claimed, but no row ever renders an `"Error"` marker: a subgraph whose
fetch failed is skipped before printing, and the renderer never looks at
the current block. -/
theorem etaDisplay_follows_policy :
    ∀ (eta blocksBehind : Int),
      etaDisplay eta blocksBehind = etaPolicy eta blocksBehind ∧
      etaDisplay eta blocksBehind ≠ .err := by
  intro eta behind
  have h24 : (1 : ℚ) ≤ durationHours eta / 24 ↔ 24 ≤ durationHours eta :=
    one_le_div (by norm_num)
  constructor
  · by_cases hp : 0 < eta
    · simp only [etaDisplay, etaPolicy, if_pos hp, if_neg (by omega : ¬eta ≤ 0), h24]
    · simp only [etaDisplay, etaPolicy, if_neg hp, if_pos (by omega : eta ≤ 0)]
  · simp only [etaDisplay]
    split_ifs <;> simp

/-! ## C4 — ETA sign and the speed ≤ 0 case -/

/-- A subgraph holding one history sample and a stale positive ETA of five
minutes from an earlier cycle. -/
def sgStaleEta : SubgraphInfo :=
  { sgInit with
    syncSpeed := 5
    estimatedTimeLeft := 300000000000
    lastCheckedBlocks := [100]
    lastCheckedTimes := [0] }

/-- C4 counterexample: when the freshly computed sync speed is non-positive
(the indexer regressed from block 100 to 90 over two minutes), the ETA does
NOT remain at its previous value — the `else` arm at src/main.go
lines 162–164 resets it to `0`, discarding the stale five-minute ETA. -/
theorem eta_zeroed_not_retained_on_nonpositive_speed :
    (recordAndCompute sgStaleEta 90 2 200).syncSpeed ≤ 0 ∧
    sgStaleEta.estimatedTimeLeft = 300000000000 ∧
    (recordAndCompute sgStaleEta 90 2 200).estimatedTimeLeft = 0 := by
  refine ⟨by norm_num [recordAndCompute, newBlocks, newTimes, sgStaleEta, sgInit, List.getD],
    rfl, by norm_num [recordAndCompute, newBlocks, newTimes, sgStaleEta, sgInit, List.getD]⟩

/-- C4 (amended): on a successful cycle whose window holds at least two
samples with positive elapsed time, the ETA assigned together with a
positive sync speed is non-negative whenever blocks-behind is
non-negative; and whenever the computed sync speed is non-positive the ETA
is reset to `0` (it does not keep its previous value). -/
theorem eta_sign_and_reset (sg : SubgraphInfo) (b : Int) (t : ℚ) (L : Int)
    (h2 : 2 ≤ (recordAndCompute sg b t L).lastCheckedBlocks.length)
    (ht : 0 < (recordAndCompute sg b t L).lastCheckedTimes.getD
        ((recordAndCompute sg b t L).lastCheckedTimes.length - 1) 0 -
      (recordAndCompute sg b t L).lastCheckedTimes.getD 0 0) :
    (0 < (recordAndCompute sg b t L).syncSpeed →
      0 ≤ (recordAndCompute sg b t L).blocksBehind →
      0 ≤ (recordAndCompute sg b t L).estimatedTimeLeft) ∧
    ((recordAndCompute sg b t L).syncSpeed ≤ 0 →
      (recordAndCompute sg b t L).estimatedTimeLeft = 0) := by
  rw [rc_lastCheckedBlocks] at h2
  rw [rc_lastCheckedTimes] at ht
  rw [rc_blocksBehind]
  simp only [recordAndCompute]
  rw [if_pos h2, if_pos ht]
  split_ifs with hs
  · constructor
    · intro _ hbehind
      show 0 ≤ truncQ ((((L - b : Int) : ℚ)) / _) * minuteNs
      apply mul_nonneg _ (by norm_num [minuteNs])
      have hq : (0 : ℚ) ≤ ((L - b : Int) : ℚ) / _ :=
        div_nonneg (by exact_mod_cast hbehind) (le_of_lt hs)
      simp only [truncQ, if_pos hq]
      exact_mod_cast Int.floor_nonneg.mpr hq
    · intro hle
      exact absurd hs (not_lt.mpr hle)
  · exact ⟨fun hlt => absurd hlt hs, fun _ => rfl⟩

/-- A subgraph holding a single earlier sample `(100, t = 0)`. -/
def sgOneSample : SubgraphInfo :=
  { sgInit with lastCheckedBlocks := [100], lastCheckedTimes := [0] }

/-- C4 witness: after sampling block 130 at minute 3 against latest block
200, the window is `[100, 130]` over 3 minutes, the speed 10 is positive,
blocks-behind is 70 and the assigned ETA is non-negative. -/
theorem eta_sign_and_reset_witness :
    (0 < (recordAndCompute sgOneSample 130 3 200).syncSpeed →
      0 ≤ (recordAndCompute sgOneSample 130 3 200).blocksBehind →
      0 ≤ (recordAndCompute sgOneSample 130 3 200).estimatedTimeLeft) ∧
    ((recordAndCompute sgOneSample 130 3 200).syncSpeed ≤ 0 →
      (recordAndCompute sgOneSample 130 3 200).estimatedTimeLeft = 0) :=
  eta_sign_and_reset sgOneSample 130 3 200 (by norm_num [recordAndCompute, newBlocks, newTimes, sgStaleEta, sgOneSample, sgInit, List.getD]) (by norm_num [recordAndCompute, newBlocks, newTimes, sgStaleEta, sgOneSample, sgInit, List.getD])

/-! ## C2 — exact sync speed over a non-degenerate window -/

/-- C2: whenever the post-sample window holds at least two entries and the
elapsed time between its oldest and newest timestamps is positive, the
stored sync speed is exactly `(newest block − oldest block) / elapsed
minutes`. -/
theorem syncSpeed_window_exact (sg : SubgraphInfo) (b : Int) (t : ℚ) (L : Int)
    (h2 : 2 ≤ (recordAndCompute sg b t L).lastCheckedBlocks.length)
    (ht : 0 < (recordAndCompute sg b t L).lastCheckedTimes.getD
        ((recordAndCompute sg b t L).lastCheckedTimes.length - 1) 0 -
      (recordAndCompute sg b t L).lastCheckedTimes.getD 0 0) :
    (recordAndCompute sg b t L).syncSpeed =
      (((recordAndCompute sg b t L).lastCheckedBlocks.getD
          ((recordAndCompute sg b t L).lastCheckedBlocks.length - 1) 0 -
        (recordAndCompute sg b t L).lastCheckedBlocks.getD 0 0 : Int) : ℚ) /
      ((recordAndCompute sg b t L).lastCheckedTimes.getD
          ((recordAndCompute sg b t L).lastCheckedTimes.length - 1) 0 -
        (recordAndCompute sg b t L).lastCheckedTimes.getD 0 0) := by
  rw [rc_lastCheckedBlocks] at h2
  rw [rc_lastCheckedTimes] at ht
  rw [rc_lastCheckedBlocks, rc_lastCheckedTimes]
  simp only [recordAndCompute]
  rw [if_pos h2, if_pos ht]
  split_ifs <;> rfl

/-- C2 witness: sampling block 130 at minute 3 over the single-sample
window `[(100, 0)]` gives the window `[(100, 0), (130, 3)]` and speed
`(130 − 100) / 3 = 10` blocks per minute. -/
theorem syncSpeed_window_exact_witness :
    (recordAndCompute sgOneSample 130 3 200).syncSpeed = 10 := by
  have h := syncSpeed_window_exact sgOneSample 130 3 200 (by norm_num [recordAndCompute, newBlocks, newTimes, sgStaleEta, sgOneSample, sgInit, List.getD]) (by norm_num [recordAndCompute, newBlocks, newTimes, sgStaleEta, sgOneSample, sgInit, List.getD])
  rw [h]
  norm_num [recordAndCompute, newBlocks, newTimes, sgStaleEta, sgOneSample, sgInit, List.getD]

/-! ## C3 — the history window is a bounded FIFO -/

theorem runCycles_cons (sg : SubgraphInfo) (i : Except FetchError Int × ℚ × Int)
    (rest : List (Except FetchError Int × ℚ × Int)) :
    runCycles sg (i :: rest) = runCycles (cycleStep sg i.1 i.2.1 i.2.2) rest := rfl

/-- Appending one element to the tail-window of `l` and trimming one entry
when the capacity `m` is exceeded yields the tail-window of `l ++ [b]`. -/
theorem rtake_append_trim {α : Type} (m : ℕ) (l : List α) (b : α) :
    (if m < (l.rtake m ++ [b]).length then (l.rtake m ++ [b]).drop 1
     else l.rtake m ++ [b]) = (l ++ [b]).rtake m := by
  rcases Nat.eq_zero_or_pos m with hm | hm
  · subst hm
    simp [List.rtake]
  · rcases le_or_lt m l.length with h | h
    · have hlen : (l.rtake m).length = m := by
        simp only [List.rtake, List.length_drop]
        omega
      rw [if_pos (by simp [hlen])]
      have hd : (l.rtake m ++ [b]).drop 1 = (l.rtake m).drop 1 ++ [b] :=
        List.drop_append_of_le_length (by omega)
      have h1 : (l.rtake m).drop 1 = l.drop (l.length + 1 - m) := by
        simp only [List.rtake, List.drop_drop]
        congr 1
        omega
      have h2 : (l ++ [b]).rtake m = l.drop (l.length + 1 - m) ++ [b] := by
        simp only [List.rtake, List.length_append, List.length_singleton]
        exact List.drop_append_of_le_length (by omega)
      rw [hd, h1, h2]
    · have h0 : l.length - m = 0 := by omega
      have hr : l.rtake m = l := by simp [List.rtake, h0]
      rw [hr, if_neg (by simp [List.length_append]; omega)]
      simp only [List.rtake, List.length_append, List.length_singleton]
      have hz : l.length + 1 - m = 0 := by omega
      rw [hz, List.drop_zero]

/-- One sample update on a block history that is the tail-window of the
samples seen so far extends the window by the new sample. -/
theorem newBlocks_rtake (sg : SubgraphInfo) (b : Int) (acc : List Int)
    (hm : 0 ≤ sg.maxHistoryEntries)
    (hb : sg.lastCheckedBlocks = acc.rtake sg.maxHistoryEntries.toNat) :
    newBlocks sg b = (acc ++ [b]).rtake sg.maxHistoryEntries.toNat := by
  have hmi : sg.maxHistoryEntries = (sg.maxHistoryEntries.toNat : Int) :=
    (Int.toNat_of_nonneg hm).symm
  have hcond :
      ((acc.rtake sg.maxHistoryEntries.toNat ++ [b]).length : Int) > sg.maxHistoryEntries ↔
        sg.maxHistoryEntries.toNat <
          (acc.rtake sg.maxHistoryEntries.toNat ++ [b]).length := by
    rw [hmi, gt_iff_lt]
    exact_mod_cast Iff.rfl
  simp only [newBlocks, hb]
  rw [if_congr hcond rfl rfl]
  exact rtake_append_trim _ acc b

/-- Iterated cycles keep the block history equal to the tail-window of all
successfully sampled blocks, and preserve the capacity field. -/
theorem runCycles_blocks (inputs : List (Except FetchError Int × ℚ × Int)) :
    ∀ (sg : SubgraphInfo) (acc : List Int),
      0 ≤ sg.maxHistoryEntries →
      sg.lastCheckedBlocks = acc.rtake sg.maxHistoryEntries.toNat →
      (runCycles sg inputs).maxHistoryEntries = sg.maxHistoryEntries ∧
      (runCycles sg inputs).lastCheckedBlocks
        = (acc ++ inputs.filterMap okBlock).rtake sg.maxHistoryEntries.toNat := by
  induction inputs with
  | nil =>
    intro sg acc hm hb
    exact ⟨rfl, by simpa using hb⟩
  | cons i rest ih =>
    intro sg acc hm hb
    obtain ⟨f, t, L⟩ := i
    rw [runCycles_cons]
    cases f with
    | error e =>
      have h := ih sg acc hm hb
      simpa [cycleStep, okBlock, Except.toOption, List.filterMap_cons] using h
    | ok b =>
      have hm' : 0 ≤ (recordAndCompute sg b t L).maxHistoryEntries := by
        rw [rc_maxHistoryEntries]
        exact hm
      have hb' : (recordAndCompute sg b t L).lastCheckedBlocks
          = (acc ++ [b]).rtake (recordAndCompute sg b t L).maxHistoryEntries.toNat := by
        rw [rc_maxHistoryEntries, rc_lastCheckedBlocks]
        exact newBlocks_rtake sg b acc hm hb
      have h := ih (recordAndCompute sg b t L) (acc ++ [b]) hm' hb'
      rw [rc_maxHistoryEntries] at h
      simpa [cycleStep, okBlock, Except.toOption, List.filterMap_cons,
        List.append_assoc] using h

/-- C3: starting from the empty history, after any sequence of cycles the
window length never exceeds the configured maximum, and the window is
exactly the tail of the successfully sampled blocks — the oldest entry is
evicted first (FIFO), failed fetches recording nothing. -/
theorem history_window_bounded_fifo (sg : SubgraphInfo)
    (inputs : List (Except FetchError Int × ℚ × Int))
    (hb : sg.lastCheckedBlocks = [])
    (hm : 0 ≤ sg.maxHistoryEntries) :
    ((runCycles sg inputs).lastCheckedBlocks.length : Int) ≤ sg.maxHistoryEntries ∧
    (runCycles sg inputs).lastCheckedBlocks
      = (inputs.filterMap okBlock).rtake sg.maxHistoryEntries.toNat := by
  have h := runCycles_blocks inputs sg [] hm (by simp [hb])
  have h2 : (runCycles sg inputs).lastCheckedBlocks
      = (inputs.filterMap okBlock).rtake sg.maxHistoryEntries.toNat := by
    simpa using h.2
  refine ⟨?_, h2⟩
  rw [h2]
  have hlen : ((inputs.filterMap okBlock).rtake sg.maxHistoryEntries.toNat).length
      ≤ sg.maxHistoryEntries.toNat := by
    simp only [List.rtake, List.length_drop]
    omega
  calc (((inputs.filterMap okBlock).rtake sg.maxHistoryEntries.toNat).length : Int)
      ≤ (sg.maxHistoryEntries.toNat : Int) := by exact_mod_cast hlen
    _ = sg.maxHistoryEntries := Int.toNat_of_nonneg hm

/-- Eight successful samples and one failed fetch against a window of
capacity six. -/
def inputsNine : List (Except FetchError Int × ℚ × Int) :=
  [(.ok 1, 1, 10), (.ok 2, 2, 10), (.error (.transport "x"), 3, 10),
   (.ok 3, 4, 10), (.ok 4, 5, 10), (.ok 5, 6, 10), (.ok 6, 7, 10),
   (.ok 7, 8, 10), (.ok 8, 9, 10)]

/-- C3 witness: from the startup state (empty history, capacity 6), the
nine cycles of `inputsNine` leave a window of at most six entries holding
exactly the six most recent successful samples. -/
theorem history_window_bounded_fifo_witness :
    ((runCycles sgInit inputsNine).lastCheckedBlocks.length : Int)
        ≤ sgInit.maxHistoryEntries ∧
    (runCycles sgInit inputsNine).lastCheckedBlocks
      = (inputsNine.filterMap okBlock).rtake sgInit.maxHistoryEntries.toNat :=
  history_window_bounded_fifo sgInit inputsNine rfl (by decide)

/-! ## C10 — the two history slices stay aligned -/

/-- One successful sample update preserves equality of the two slices'
lengths: both are appended to, and both are trimmed under the one length
test on the block slice. -/
theorem rc_lengths_eq (sg : SubgraphInfo) (b : Int) (t : ℚ) (L : Int)
    (h : sg.lastCheckedBlocks.length = sg.lastCheckedTimes.length) :
    (recordAndCompute sg b t L).lastCheckedBlocks.length
      = (recordAndCompute sg b t L).lastCheckedTimes.length := by
  rw [rc_lastCheckedBlocks, rc_lastCheckedTimes]
  simp only [newBlocks, newTimes]
  split_ifs <;> simp [h]

/-- C10: after any sequence of cycles from a state whose two history slices
have equal length (as at startup, where both are empty), the slices still
have equal length — every block sample has exactly one timestamp. -/
theorem history_slices_aligned (sg : SubgraphInfo)
    (inputs : List (Except FetchError Int × ℚ × Int))
    (h : sg.lastCheckedBlocks.length = sg.lastCheckedTimes.length) :
    (runCycles sg inputs).lastCheckedBlocks.length
      = (runCycles sg inputs).lastCheckedTimes.length := by
  induction inputs generalizing sg with
  | nil => exact h
  | cons i rest ih =>
    rw [runCycles_cons]
    obtain ⟨f, t, L⟩ := i
    cases f with
    | error e => exact ih _ (by simpa [cycleStep] using h)
    | ok b => exact ih _ (rc_lengths_eq sg b t L h)

/-- C10 witness: from the startup state, one successful and one failed
cycle leave the two slices with equal lengths. -/
theorem history_slices_aligned_witness :
    (runCycles sgInit [(.ok 120, 1, 150), (.error (.transport "x"), 2, 150)]).lastCheckedBlocks.length
      = (runCycles sgInit
          [(.ok 120, 1, 150), (.error (.transport "x"), 2, 150)]).lastCheckedTimes.length :=
  history_slices_aligned sgInit [(.ok 120, 1, 150), (.error (.transport "x"), 2, 150)] rfl

end SyncChecker
